import Mathlib

/-!
Verification development for the OneFlow → Relay frontend
(`python/tvm/relay/frontend/oneflow.py`).

The Python source is shallowly embedded: Python `int` becomes `Int`,
Python strings become `String` (manipulated through their character
lists so that everything evaluates inside the kernel), Python dicts
become insertion-ordered association lists (assignment to an existing
key replaces the value in place, exactly like CPython dicts), and
Python exceptions become `Except String`.
-/

/-! ## String utilities (Python `in`, `str.replace`, `str.split`) -/

/-- Whether `p` is an initial run of `l` (helper for the Python
substring test `pat in s`). -/
def charsStartWith : List Char → List Char → Bool
  | [], _ => true
  | _ :: _, [] => false
  | p :: ps, c :: cs => p == c && charsStartWith ps cs

/-- Whether `pat` occurs contiguously inside `l`. -/
def charsContain (pat : List Char) : List Char → Bool
  | [] => charsStartWith pat []
  | c :: cs => charsStartWith pat (c :: cs) || charsContain pat cs

/-- Python `pat in s` on strings. -/
def strContains (s pat : String) : Bool :=
  charsContain pat.data s.data

/-- Replace non-overlapping occurrences of `p :: ps`, scanning left to
right (helper for `str.replace`).  The `Nat` argument is recursion
fuel; called with the length of the scanned list it never runs out,
since a match always consumes at least one character. -/
def replaceGo (p : Char) (ps rep : List Char) : Nat → List Char → List Char
  | _, [] => []
  | 0, l => l
  | fuel + 1, c :: cs =>
    if charsStartWith (p :: ps) (c :: cs) then
      rep ++ replaceGo p ps rep fuel (cs.drop ps.length)
    else
      c :: replaceGo p ps rep fuel cs

/-- Python `s.replace(pat, rep)` (all occurrences, left to right). -/
def strReplace (s pat rep : String) : String :=
  match pat.data with
  | [] => s
  | p :: ps => ⟨replaceGo p ps rep.data s.data.length s.data⟩

/-- Python `s.split(sep)[0]` for a one-character separator: the prefix
of `s` before the first occurrence of `sep` (all of `s` if absent). -/
def firstSegBy (sep : Char) (s : String) : String :=
  ⟨s.data.takeWhile (fun c => c != sep)⟩

/-- Python `i.split("/")[0]` as used on blob reference strings. -/
def firstSegment (s : String) : String := firstSegBy '/' s

/-- Python `s.lower()`. -/
def strToLower (s : String) : String := ⟨s.data.map Char.toLower⟩

/-- Python `", ".join(l)`. -/
def joinComma : List String → String
  | [] => ""
  | [x] => x
  | x :: y :: rest => x ++ ", " ++ joinComma (y :: rest)

/-! ## `get_pad_pair` (source lines 152–162)

```python
def get_pad_pair(input1d, kernel1d, stride1d, mode):
    if input1d % stride1d == 0:
        pad = max(kernel1d - stride1d, 0)
    else:
        pad = max(kernel1d - (input1d % stride1d), 0)
    pad_before = pad // 2
    pad_after = pad - pad_before
    if "LOWER" in mode:
        return [pad_after, pad_before]
    return [pad_before, pad_after]
```
-/

def get_pad_pair (input1d kernel1d stride1d : Int) (mode : String) : List Int :=
  let pad : Int :=
    if input1d % stride1d = 0 then max (kernel1d - stride1d) 0
    else max (kernel1d - input1d % stride1d) 0
  let pad_before := pad / 2
  let pad_after := pad - pad_before
  if strContains mode "LOWER" then [pad_after, pad_before]
  else [pad_before, pad_after]

/-- The spec's `expected_total_pad` (§4.4/§8): total pad per axis. -/
def expected_total_pad (input1d kernel1d stride1d : Int) : Int :=
  if input1d % stride1d = 0 then max (kernel1d - stride1d) 0
  else max (kernel1d - input1d % stride1d) 0

/-! ## Insertion-ordered association lists (CPython dict semantics)

Assignment to an existing key replaces the value in place (the key
keeps its original position); assignment to a new key appends. -/

/-- Python `d[k]` as an `Option`. -/
def alookup {κ β : Type} [DecidableEq κ] (k : κ) : List (κ × β) → Option β
  | [] => none
  | (k', v') :: rest => if k' = k then some v' else alookup k rest

/-- Python `d[k] = v`. -/
def ainsert {κ β : Type} [DecidableEq κ] (k : κ) (v : β) :
    List (κ × β) → List (κ × β)
  | [] => [(k, v)]
  | (k', v') :: rest =>
    if k' = k then (k, v) :: rest else (k', v') :: ainsert k v rest

/-! ## Attribute parsing (`parse_attr`, source lines 95–131)

A raw attribute is the protobuf `AttrValue` oneof.  The source
dispatches on the tag rendered by `str(...)`; tags outside the known
set fall through every branch, so the entry is silently dropped. -/

/-- Opaque carrier for a floating-point payload (floats are only moved
around by the frontend, never computed with). -/
structure FloatVal where
  bits : Nat
  deriving DecidableEq, Repr

/-- The raw (framework-side) tagged attribute value.  `unknownTag`
stands for any oneof tag outside the set the source recognizes. -/
inductive RawAttr
  | at_bool (b : Bool)
  | at_int32 (n : Int)
  | at_int64 (n : Int)
  | at_float (f : FloatVal)
  | at_double (f : FloatVal)
  | at_string (s : String)
  | at_shape (dims : List Int)
  | at_list_float (vs : List FloatVal)
  | at_list_int32 (vs : List Int)
  | at_list_int64 (vs : List Int)
  | unknownTag (tag : String)
  deriving DecidableEq, Repr

/-- The normalized attribute value produced by `parse_attr` (Python
values: `bool`, `int`, `float`, `str`, tuple of ints / floats). -/
inductive AttrValue
  | aBool (b : Bool)
  | aInt (n : Int)
  | aFloat (f : FloatVal)
  | aString (s : String)
  | aShape (dims : List Int)
  | aListFloat (vs : List FloatVal)
  | aListInt (vs : List Int)
  deriving DecidableEq, Repr

/-- One dispatch step of `parse_attr`: known tags are copied (lists and
shapes become tuples, int32/int64 collapse to Python `int`), anything
else matches no branch and yields nothing. -/
def parseOneAttr : RawAttr → Option AttrValue
  | .at_bool b => some (.aBool b)
  | .at_int32 n => some (.aInt n)
  | .at_int64 n => some (.aInt n)
  | .at_float f => some (.aFloat f)
  | .at_double f => some (.aFloat f)
  | .at_string s => some (.aString s)
  | .at_shape ds => some (.aShape ds)
  | .at_list_float vs => some (.aListFloat vs)
  | .at_list_int32 vs => some (.aListInt vs)
  | .at_list_int64 vs => some (.aListInt vs)
  | .unknownTag _ => none

def parse_attr_aux (acc : List (String × AttrValue)) :
    List (String × RawAttr) → List (String × AttrValue)
  | [] => acc
  | (k, v) :: rest =>
    match parseOneAttr v with
    | some av => parse_attr_aux (ainsert k av acc) rest
    | none => parse_attr_aux acc rest

/-- The `parse_attr` routine: builds the normalized attribute dict in iteration
order; entries with an unrecognized tag contribute nothing. -/
def parse_attr (attrs : List (String × RawAttr)) : List (String × AttrValue) :=
  parse_attr_aux [] attrs

/-! ## Relay expressions and converter outputs -/

/-- A (structural) model of the relay expressions this frontend
manipulates: variables made by `new_var`, constants made by
`_expr.const`, and the arithmetic the scalar converters emit. -/
inductive RelayExpr
  | var (name : String)
  | constI (n : Int)
  | constF (f : FloatVal)
  | constB (b : Bool)
  | constArr (ds : List Int)
  | add (a b : RelayExpr)
  | mul (a b : RelayExpr)
  deriving DecidableEq, Repr

/-- What a converter returns: a single expression or a
`TupleWrapper` of expressions.  This is also the type of the values
stored in `self._nodes` (Python is dynamically typed there). -/
inductive ConvOut
  | single (e : RelayExpr)
  | tupleOut (es : List RelayExpr)
  deriving DecidableEq, Repr

/-- Number of produced IR values (`1` unless the converter returned a
`TupleWrapper`, source lines 1476–1479). -/
def outputsNumOf : ConvOut → Nat
  | .single _ => 1
  | .tupleOut es => es.length

/-! ## `oneflow_input` (source lines 1175–1223) -/

/-- The dual-purpose list/dict access object. -/
structure oneflow_input where
  input_keys : List String
  input_dict : List (String × ConvOut)
  deriving Repr

/-- A Python subscript: `int`, `str`, `slice`, or anything else. -/
inductive PyKey
  | ival (n : Int)
  | sval (s : String)
  | sliceK (start stop : Option Int)
  | other
  deriving DecidableEq, Repr

/-- Outcome of `oneflow_input.__getitem__`: `None`, one value, a list
of values, or an exception. -/
inductive GetResult
  | noneR
  | val (v : ConvOut)
  | listR (vs : List ConvOut)
  | indexErr
  | keyErr
  | valueErr
  deriving DecidableEq, Repr

/-- Python `l[n]` for an `int` index (negative indices count from the
end; out-of-range raises `IndexError`). -/
def pyListGet {α : Type} (l : List α) (n : Int) : Option α :=
  let m : Int := if n < 0 then n + l.length else n
  if 0 ≤ m ∧ m < l.length then l.get? m.toNat else none

/-- Python `l[a:b]` (step 1): indices are clamped into range. -/
def pySlice {α : Type} (l : List α) (start stop : Option Int) : List α :=
  let n : Int := l.length
  let s : Int := match start with
    | none => 0
    | some i => if i < 0 then max (n + i) 0 else min i n
  let e : Int := match stop with
    | none => n
    | some i => if i < 0 then max (n + i) 0 else min i n
  (l.take e.toNat).drop s.toNat

/-- Look every key up in the dict; `none` models a `KeyError`. -/
def lookupAll (d : List (String × ConvOut)) : List String → Option (List ConvOut)
  | [] => some []
  | k :: rest =>
    match alookup k d with
    | none => none
    | some v => (lookupAll d rest).map (v :: ·)

/-- Method `oneflow_input.__getitem__` (source lines 1183–1196). -/
def oneflow_input.getitem (st : oneflow_input) (item : PyKey) : GetResult :=
  match item with
  | .ival n =>
    if n > (st.input_keys.length : Int) - 1 then .noneR
    else
      match pyListGet st.input_keys n with
      | none => .indexErr
      | some key =>
        match alookup key st.input_dict with
        | none => .keyErr
        | some v => .val v
  | .sval s =>
    if st.input_keys.contains s then
      match alookup s st.input_dict with
      | none => .keyErr
      | some v => .val v
    else .noneR
  | .sliceK a b =>
    match lookupAll st.input_dict (pySlice st.input_keys a b) with
    | none => .keyErr
    | some vs => .listR vs
  | .other => .valueErr

/-- Method `oneflow_input.__setitem__` for a string key (source lines
1201–1203): appends the key and assigns the dict entry. -/
def oneflow_input.setStr (st : oneflow_input) (k : String) (v : ConvOut) :
    oneflow_input :=
  { input_keys := st.input_keys ++ [k]
    input_dict := ainsert k v st.input_dict }

def emptyOneflowInput : oneflow_input := { input_keys := [], input_dict := [] }

/-! ## Scalar converters (`ScalarAdd._impl_v1` lines 826–838,
`ScalarMul._impl_v1` lines 841–853) -/

/-- Python truthiness of a parsed attribute value, as tested by
`if attrs.get("has_int_operand", False):`. -/
def truthy : AttrValue → Bool
  | .aBool b => b
  | .aInt n => n != 0
  | .aFloat f => f.bits != 0
  | .aString s => s != ""
  | .aShape ds => !ds.isEmpty
  | .aListFloat vs => !vs.isEmpty
  | .aListInt vs => !vs.isEmpty

/-- Python `attrs.get(k, False)` used as a condition. -/
def attrTruthy (attrs : List (String × AttrValue)) (k : String) : Bool :=
  match alookup k attrs with
  | none => false
  | some v => truthy v

/-- Relay `_expr.const(v)` on a parsed attribute value; `none` models the
cases relay's `const` rejects. -/
def mkConst : AttrValue → Option RelayExpr
  | .aInt n => some (.constI n)
  | .aFloat f => some (.constF f)
  | .aBool b => some (.constB b)
  | .aShape ds => some (.constArr ds)
  | .aListInt vs => some (.constArr vs)
  | .aListFloat _ => none
  | .aString _ => none

/-- Converter `ScalarAdd._impl_v1`. -/
def scalarAddImpl (inputs : List RelayExpr)
    (attrs : List (String × AttrValue)) : Except String RelayExpr :=
  match inputs with
  | [x] =>
    if attrTruthy attrs "has_int_operand" then
      match alookup "int_operand" attrs with
      | none => .error "KeyError: int_operand"
      | some v =>
        match mkConst v with
        | some c => .ok (.add x c)
        | none => .error "TypeError: unsupported constant"
    else if attrTruthy attrs "has_float_operand" then
      match alookup "float_operand" attrs with
      | none => .error "KeyError: float_operand"
      | some v =>
        match mkConst v with
        | some c => .ok (.add x c)
        | none => .error "TypeError: unsupported constant"
    else
      .error "AttributeError: please check if has_int_operand or has_float_operand in your attrs"
  | _ =>
    .error ("AssertionError: add_scalar take == 1 inputs, but " ++
      toString inputs.length ++ " given.")

/-- Converter `ScalarMul._impl_v1` (its assert message also says `add_scalar`,
as in the source). -/
def scalarMulImpl (inputs : List RelayExpr)
    (attrs : List (String × AttrValue)) : Except String RelayExpr :=
  match inputs with
  | [x] =>
    if attrTruthy attrs "has_int_operand" then
      match alookup "int_operand" attrs with
      | none => .error "KeyError: int_operand"
      | some v =>
        match mkConst v with
        | some c => .ok (.mul x c)
        | none => .error "TypeError: unsupported constant"
    else if attrTruthy attrs "has_float_operand" then
      match alookup "float_operand" attrs with
      | none => .error "KeyError: float_operand"
      | some v =>
        match mkConst v with
        | some c => .ok (.mul x c)
        | none => .error "TypeError: unsupported constant"
    else
      .error "AttributeError: please check if has_int_operand or has_float_operand in your attrs"
  | _ =>
    .error ("AssertionError: add_scalar take == 1 inputs, but " ++
      toString inputs.length ++ " given.")

/-! ## Graph nodes -/

/-- The payload of a `user_conf` node: op-type name, named input and
output slots (each slot holds a list of blob reference strings, the
protobuf `s` field), and the raw attribute map. -/
structure UserConf where
  opTypeName : String
  inputSlots : List (String × List String)
  outputSlots : List (String × List String)
  rawAttrs : List (String × RawAttr)
  deriving Repr

/-- The `op_type` oneof of a node: `input_conf`, `user_conf`,
`output_conf` (carrying its `in` path), or `variable_conf`. -/
inductive NodeConf
  | inputConf
  | user (uc : UserConf)
  | outputConf (inPath : String)
  | variableConf
  deriving Repr

structure Node where
  name : String
  conf : NodeConf
  deriving Repr

/-! ## Converter registry (`get_convert_map` lines 1105–1161,
`_identity_list` line 56) -/

/-- The op-type names registered in `get_convert_map`. -/
def convertMapKeys : List String :=
  ["bias_add", "scalar_add", "scalar_mul", "reduce_sum", "reduce_max",
   "reduce_min", "reduce_mean", "broadcast_add", "broadcast_mul",
   "broadcast_sub", "broadcast_div", "log", "acos", "acosh", "asin",
   "asinh", "atan", "atanh", "cos", "cosh", "sin", "sinh", "tan", "tanh",
   "pow", "exp", "floor", "ceil", "round", "add_n", "sqrt", "rsqrt",
   "square", "sigmoid", "relu", "prelu", "conv2d", "maxpool_2d",
   "avgpool_2d", "dropout", "normalization", "matmul", "concat",
   "clip_by_scalar", "slice", "expand", "reshape", "flatten"]

/-- The `_identity_list` global is the empty list in the source. -/
def identityList : List String := []

/-- Python `op_name in convert_map or op_name in _identity_list`. -/
def supportedOp (opName : String) : Bool :=
  convertMapKeys.contains opName || identityList.contains opName

/-- Step 2 of `from_oneflow` (lines 1408–1421): scan every user node
and collect the set of unsupported op-type names (a Python `set`,
modelled as a deduplicated list in first-encounter order). -/
def collectUnsupportedAux (acc : List String) : List Node → List String
  | [] => acc
  | nd :: rest =>
    match nd.conf with
    | .user uc =>
      if supportedOp uc.opTypeName || acc.contains uc.opTypeName then
        collectUnsupportedAux acc rest
      else
        collectUnsupportedAux (acc ++ [uc.opTypeName]) rest
    | _ => collectUnsupportedAux acc rest

def collectUnsupported (nodes : List Node) : List String :=
  collectUnsupportedAux [] nodes

/-- The aggregated `OpNotImplemented` message (lines 1422–1425). -/
def unsupportedMsg (ops : List String) : String :=
  "The following operators are not supported for frontend OneFlow: " ++
    joinComma ops

/-! ## Path tables built by `OneflowGraph.__init__` (lines 1284–1311) -/

/-- Python `os.path.join(model_dir_path, ref.replace("m.", ""))`. -/
def pathJoin (dir ref : String) : String :=
  dir ++ "/" ++ strReplace ref "m." ""

/-- Table `self._input_path_2_name`: for every user node, every input slot
and every blob reference, bind the joined path to the reference's
first `/`-segment — a plain dict assignment, so a later binding of the
same path silently replaces an earlier one. -/
def buildInputPath2Name (dir : String) (nodes : List Node) :
    List (String × String) :=
  nodes.foldl
    (fun tbl nd =>
      match nd.conf with
      | .user uc =>
        uc.inputSlots.foldl
          (fun tbl2 slot =>
            slot.2.foldl
              (fun tbl3 p => ainsert (pathJoin dir p) (firstSegment p) tbl3)
              tbl2)
          tbl
      | _ => tbl)
    []

/-- Table `self._output_path_2_name`: joined `output_conf.in` path → node
name (same overwrite-on-collision dict semantics). -/
def buildOutputPath2Name (dir : String) (nodes : List Node) :
    List (String × String) :=
  nodes.foldl
    (fun tbl nd =>
      match nd.conf with
      | .outputConf p => ainsert (pathJoin dir p) nd.name tbl
      | _ => tbl)
    []

/-! ## The conversion loop (step 3 of `from_oneflow`, lines 1428–1500) -/

/-- Mutable state of a conversion run (`self._nodes`, `self._inputs`,
`self._shape`, `self._dtype`, collected warnings, plus a trace of the
user nodes converted so far, in order). -/
structure RunState where
  nodes : List (String × ConvOut)
  inputs : List (String × ConvOut)
  shape : List (String × List Int)
  dtype : List (String × String)
  warnings : List String
  trace : List String
  deriving Repr

/-- One blob reference of `_parse_input` (lines 1314–1340).  The shape
and dtype of the reference's name are read unconditionally (a missing
entry is a `KeyError`); a name not yet in `self._nodes` becomes a
fresh variable when its path has no producer entry or the name
contains `"0-input_0"`; otherwise the source's replacement branch
always ends in an exception (`node_name` is undefined there). -/
def parseInputPath (shapeTab : List (String × List Int))
    (dtypeTab : List (String × String)) (inputTab : List (String × String))
    (dir : String) (nodes : List (String × ConvOut)) (ref : String) :
    Except String (List (String × ConvOut)) :=
  let nodeInput := firstSegment ref
  match alookup nodeInput shapeTab with
  | none => .error ("KeyError: " ++ nodeInput)
  | some _ =>
    match alookup nodeInput dtypeTab with
    | none => .error ("KeyError: " ++ nodeInput)
    | some _ =>
      let nodePath := pathJoin dir ref
      if (alookup nodeInput nodes).isSome then .ok nodes
      else if (alookup nodePath inputTab).isNone ||
          strContains nodeInput "0-input_0" then
        .ok (ainsert nodeInput (.single (.var nodeInput)) nodes)
      else
        .error "NameError: name node_name is not defined"

/-- Method `_parse_input` over all input slots of a node. -/
def parseInputs (shapeTab : List (String × List Int))
    (dtypeTab : List (String × String)) (inputTab : List (String × String))
    (dir : String) (nodes : List (String × ConvOut))
    (slots : List (String × List String)) :
    Except String (List (String × ConvOut)) :=
  match slots with
  | [] => .ok nodes
  | (_, ps) :: rest =>
    match parseInputsPaths shapeTab dtypeTab inputTab dir nodes ps with
    | .error e => .error e
    | .ok nodes' => parseInputs shapeTab dtypeTab inputTab dir nodes' rest
where
  parseInputsPaths (shapeTab : List (String × List Int))
      (dtypeTab : List (String × String)) (inputTab : List (String × String))
      (dir : String) (nodes : List (String × ConvOut)) :
      List String → Except String (List (String × ConvOut))
    | [] => .ok nodes
    | p :: ps =>
      match parseInputPath shapeTab dtypeTab inputTab dir nodes p with
      | .error e => .error e
      | .ok nodes' => parseInputsPaths shapeTab dtypeTab inputTab dir nodes' ps

/-- Build `node_inputs` (lines 1445–1450): for every reference, look
its first segment up in `self._nodes`; a missing entry is a fatal
`KeyError`. -/
def gatherInputs (nodes : List (String × ConvOut))
    (slots : List (String × List String)) : Except String oneflow_input :=
  gatherInputsGo nodes (slots.foldl (fun acc s => acc ++ s.2) [])
    emptyOneflowInput
where
  gatherInputsGo (nodes : List (String × ConvOut)) :
      List String → oneflow_input → Except String oneflow_input
    | [], acc => .ok acc
    | p :: ps, acc =>
      let nodeInput := firstSegment p
      match alookup nodeInput nodes with
      | none => .error ("KeyError: " ++ nodeInput)
      | some v => gatherInputsGo nodes ps (acc.setStr nodeInput v)

/-- The warning text of line 1467. -/
def outputWarn (path : String) : String := path ++ " is not in known path"

/-- Collect `node_outputs` for one list of output references (lines
1456–1467): a path found in `self._input_path_2_name` or
`self._output_path_2_name` contributes the mapped name; an unmatched
path contributes nothing and records a warning. -/
def collectPaths (inputTab outputTab : List (String × String))
    (dir : String) : List String → List String × List String
  | [] => ([], [])
  | p :: rest =>
    let (os, ws) := collectPaths inputTab outputTab dir rest
    let np := pathJoin dir p
    match alookup np inputTab with
    | some n => (n :: os, ws)
    | none =>
      match alookup np outputTab with
      | some n => (n :: os, ws)
      | none => (os, outputWarn np :: ws)

/-- Collecting `node_outputs` over all output slots, with the warnings emitted. -/
def collectNodeOutputs (inputTab outputTab : List (String × String))
    (dir : String) : List (String × List String) → List String × List String
  | [] => ([], [])
  | (_, ps) :: rest =>
    let (o1, w1) := collectPaths inputTab outputTab dir ps
    let (o2, w2) := collectNodeOutputs inputTab outputTab dir rest
    (o1 ++ o2, w1 ++ w2)

/-- The shape/dtype bookkeeping of `_parse_output` (lines 1344–1349):
outputs not containing `"0-output_0"` copy the shape and dtype of
`"_" + <renamed>` (a missing entry is a `KeyError`). -/
def parseOutputShapes (opName : String) (shape : List (String × List Int))
    (dtype : List (String × String)) :
    List String → Except String (List (String × List Int) × List (String × String))
  | [] => .ok (shape, dtype)
  | o :: rest =>
    if strContains o "0-output_0" then parseOutputShapes opName shape dtype rest
    else
      let renamed := firstSegBy '_' (strReplace o ("-" ++ opName) "-output") ++ "_0"
      match alookup ("_" ++ renamed) shape, alookup ("_" ++ renamed) dtype with
      | some sv, some dv =>
          parseOutputShapes opName (ainsert o sv shape) (ainsert o dv dtype) rest
      | _, _ => .error ("KeyError: _" ++ renamed)

/-- Method `_parse_output` (lines 1343–1356).  For `"dropout"` the source
reads the undefined name `output`, so that path always raises. -/
def parse_output (opName : String) (shape : List (String × List Int))
    (dtype : List (String × String)) (outputs : List String) :
    Except String (List (String × List Int) × List (String × String) × List String) :=
  match parseOutputShapes opName shape dtype outputs with
  | .error e => .error e
  | .ok (s, d) =>
    if strToLower opName = "dropout" then
      .error "NameError: name output is not defined"
    else .ok (s, d, outputs)

/-- Method `_convert_operator` (lines 1544–1568): dispatch through
`_identity_list` (empty) and the convert map; the individual converter
bodies are a parameter `conv`. -/
def convert_operator
    (conv : String → oneflow_input → List (String × AttrValue) → Except String ConvOut)
    (opName : String) (ins : oneflow_input)
    (attrs : List (String × AttrValue)) : Except String ConvOut :=
  if identityList.contains opName then conv opName ins attrs
  else if convertMapKeys.contains opName then conv opName ins attrs
  else .error ("NotImplementedError: Operator " ++ opName ++ " not implemented.")

/-- The assert message of line 1481 (an `AssertionError`). -/
def mismatchMsg (found expected : Nat) (opName : String) : String :=
  "Number of output mismatch " ++ toString found ++ " vs " ++
    toString expected ++ " in " ++ opName ++ "."

/-- The output-count assert (lines 1481–1483): compares the number of
matched output names against the number of produced values. -/
def assertOutputCount (nodeOutputs : List String) (cv : ConvOut)
    (opName : String) : Except String Unit :=
  if nodeOutputs.length = outputsNumOf cv then .ok ()
  else .error (mismatchMsg nodeOutputs.length (outputsNumOf cv) opName)

/-- Binding the produced value (lines 1493–1500): `op_temp` is the
one-element list `[op]`, so a second output name indexes past its end
(`IndexError`); one name is bound with a plain dict assignment. -/
def bindOutputs (nodes : List (String × ConvOut)) (outs : List String)
    (cv : ConvOut) : Except String (List (String × ConvOut)) :=
  match outs with
  | [] => .ok nodes
  | [o] => .ok (ainsert o cv nodes)
  | _ :: _ :: _ => .error "IndexError: list index out of range"

/-- Conversion of one user node (the body of step 3, lines 1430–1500).
`fold_constant` is an external optimization pass and is modelled as the
identity. -/
def convertUserNodeStep
    (conv : String → oneflow_input → List (String × AttrValue) → Except String ConvOut)
    (dir : String) (inputTab outputTab : List (String × String))
    (st : RunState) (nodeName : String) (uc : UserConf) :
    Except (RunState × String) RunState :=
  if (alookup nodeName st.inputs).isSome then .ok st
  else
    let attrs := parse_attr uc.rawAttrs
    match parseInputs st.shape st.dtype inputTab dir st.nodes uc.inputSlots with
    | .error e => .error (st, e)
    | .ok nodes1 =>
      let st1 : RunState := { st with nodes := nodes1 }
      match gatherInputs nodes1 uc.inputSlots with
      | .error e => .error (st1, e)
      | .ok nodeInputs =>
        let ow := collectNodeOutputs inputTab outputTab dir uc.outputSlots
        let st2 : RunState := { st1 with warnings := st1.warnings ++ ow.2 }
        match parse_output uc.opTypeName st2.shape st2.dtype ow.1 with
        | .error e => .error (st2, e)
        | .ok (shape2, dtype2, outs1) =>
          let st3 : RunState := { st2 with shape := shape2, dtype := dtype2 }
          match convert_operator conv uc.opTypeName nodeInputs attrs with
          | .error e => .error (st3, e)
          | .ok cv =>
            match assertOutputCount outs1 cv uc.opTypeName with
            | .error e => .error (st3, e)
            | .ok _ =>
              match bindOutputs st3.nodes outs1 cv with
              | .error e => .error (st3, e)
              | .ok nodes2 =>
                .ok { st3 with nodes := nodes2, trace := st3.trace ++ [nodeName] }

/-- Step 3 over the whole node list, in declaration order. -/
def convertLoop
    (conv : String → oneflow_input → List (String × AttrValue) → Except String ConvOut)
    (dir : String) (inputTab outputTab : List (String × String))
    (st : RunState) : List Node → Except (RunState × String) RunState
  | [] => .ok st
  | nd :: rest =>
    match nd.conf with
    | .user uc =>
      match convertUserNodeStep conv dir inputTab outputTab st nd.name uc with
      | .error e => .error e
      | .ok st' => convertLoop conv dir inputTab outputTab st' rest
    | _ => convertLoop conv dir inputTab outputTab st rest

/-! ## Steps 4–7 of `from_oneflow` (lines 1502–1541) -/

/-- The body of the final function: `outputs[0]` when there is exactly
one collected output, otherwise `_expr.Tuple(outputs)`. -/
inductive BodyExpr
  | one (c : ConvOut)
  | tup (cs : List ConvOut)
  deriving DecidableEq, Repr

/-- Variable names occurring in a relay expression (used to model
`analysis.free_vars`). -/
def varsOf : RelayExpr → List String
  | .var n => [n]
  | .constI _ => []
  | .constF _ => []
  | .constB _ => []
  | .constArr _ => []
  | .add a b => varsOf a ++ varsOf b
  | .mul a b => varsOf a ++ varsOf b

def varsOfConv : ConvOut → List String
  | .single e => varsOf e
  | .tupleOut es => es.foldl (fun acc e => acc ++ varsOf e) []

/-- Model of `analysis.free_vars(outputs)`: the variables of the output
expression, first occurrence first. -/
def bodyFreeVarNames (b : BodyExpr) : List String :=
  (match b with
   | .one c => varsOfConv c
   | .tup cs => cs.foldl (fun acc c => acc ++ varsOfConv c) []).foldl
    (fun acc n => if acc.contains n then acc else acc ++ [n]) []

/-- Step 4 (lines 1503–1509): gather the value bound for every
`output_conf` node whose name is in `self._nodes`. -/
def collectGraphOutputs (st : RunState) : List Node → List ConvOut
  | [] => []
  | nd :: rest =>
    match nd.conf with
    | .outputConf _ =>
      match alookup nd.name st.nodes with
      | some v => v :: collectGraphOutputs st rest
      | none => collectGraphOutputs st rest
    | _ => collectGraphOutputs st rest

/-- Step 5 (lines 1513–1516): invert `self._nodes` (`{v: k}`, later
entries overwrite) and map every free variable through it; a variable
without an entry is a `KeyError`. -/
def mapFreeVars (rev : List (ConvOut × String)) :
    List String → Except String (List String)
  | [] => .ok []
  | n :: rest =>
    match alookup (ConvOut.single (.var n)) rev with
    | none => .error ("KeyError: free variable " ++ n)
    | some nm => (mapFreeVars rev rest).map (nm :: ·)

/-- Step 6, first half (lines 1519–1521): free variables not yet in
`self._inputs` are added to it, in order. -/
def addFreeInputs (inputs nodes : List (String × ConvOut)) :
    List String → Except String (List (String × ConvOut))
  | [] => .ok inputs
  | n :: rest =>
    if (alookup n inputs).isSome then addFreeInputs inputs nodes rest
    else
      match alookup n nodes with
      | some v => addFreeInputs (ainsert n v inputs) nodes rest
      | none => .error ("KeyError: " ++ n)

/-- The search of lines 1524–1529: find the first element of the tail
satisfying `p` and detach it (the loop skips index 0 and breaks after
the first hit). -/
def pullFirst (p : String → Bool) : List String → Option (String × List String)
  | [] => none
  | y :: ys =>
    if p y then some (y, ys)
    else
      match pullFirst p ys with
      | some (z, zs) => some (z, y :: zs)
      | none => none

/-- Step 6, second half: move the first tail element whose name
contains `"Input_0"` to position 0. -/
def sortInputNames (names : List String) : List String :=
  match names with
  | [] => []
  | x :: rest =>
    match pullFirst (fun n => strContains n "Input_0") rest with
    | some (y, ys) => y :: x :: ys
    | none => x :: rest

/-- Rebuild `self._sort_inputs` (lines 1531–1536): look every ordered
name up in `self._inputs`; a missing name is an `IndexError`. -/
def lookupAllInputs (inputs : List (String × ConvOut)) :
    List String → Except String (List (String × ConvOut))
  | [] => .ok []
  | n :: rest =>
    match alookup n inputs with
    | some v => (lookupAllInputs inputs rest).map ((n, v) :: ·)
    | none => .error ("IndexError: " ++ n ++ " is not in self._inputs")

/-- Steps 6–7: order the input names and build the function's ordered
parameter list. -/
def buildSortedInputs (inputs : List (String × ConvOut)) :
    Except String (List (String × ConvOut)) :=
  lookupAllInputs inputs (sortInputNames (inputs.map Prod.fst))

/-- The assembled IR function: ordered parameters and body. -/
structure FinalFunc where
  params : List (String × ConvOut)
  body : BodyExpr
  deriving Repr

/-- Steps 4–7 chained. -/
def finishRun (st : RunState) (nodeList : List Node) :
    Except (RunState × String) FinalFunc :=
  let outs := collectGraphOutputs st nodeList
  let body : BodyExpr :=
    match outs with
    | [c] => .one c
    | cs => .tup cs
  let rev := st.nodes.foldl (fun acc kv => ainsert kv.2 kv.1 acc) []
  match mapFreeVars rev (bodyFreeVarNames body) with
  | .error e => .error (st, e)
  | .ok freeNames =>
    match addFreeInputs st.inputs st.nodes freeNames with
    | .error e => .error (st, e)
    | .ok inputs1 =>
      match buildSortedInputs inputs1 with
      | .error e => .error (st, e)
      | .ok sorted => .ok { params := sorted, body := body }

/-- Method `OneflowGraph.from_oneflow` with `freeze_params=True` (steps 2–7,
lines 1408–1541): validate operator coverage, convert in declaration
order, then assemble the function.  The error carries the run state at
the point of failure (its `trace` lists the nodes already converted). -/
def fromOneflowModel
    (conv : String → oneflow_input → List (String × AttrValue) → Except String ConvOut)
    (dir : String) (inputTab outputTab : List (String × String))
    (st0 : RunState) (nodeList : List Node) :
    Except (RunState × String) (RunState × FinalFunc) :=
  let unsup := collectUnsupported nodeList
  if unsup = [] then
    match convertLoop conv dir inputTab outputTab st0 nodeList with
    | .error e => .error e
    | .ok st1 =>
      match finishRun st1 nodeList with
      | .error e => .error e
      | .ok f => .ok (st1, f)
  else .error (st0, unsupportedMsg unsup)

/-! ## Concrete instances used by counterexamples and witnesses -/

/-- A user node whose two input references join to the same storage
path (`"m.a/out"` and `"a/out"` both join to `"d/a/out"` because
`"m."` is stripped) but name different symbols. -/
def nodeC3 : Node :=
  ⟨"n0", .user ⟨"relu", [("in0", ["m.a/out"]), ("in1", ["a/out"])], [], []⟩⟩

/-- The empty initial run state. -/
def stEmpty : RunState := ⟨[], [], [], [], [], []⟩

/-- A converter-table stand-in that is never consulted. -/
def convNone : String → oneflow_input → List (String × AttrValue) →
    Except String ConvOut :=
  fun _ _ _ => .error "unused"

/-- Two user nodes with distinct unregistered op-type names. -/
def nodesC1 : List Node :=
  [⟨"na", .user ⟨"fancy_op", [], [], []⟩⟩,
   ⟨"nb", .user ⟨"other_op", [], [], []⟩⟩]

/-- A converter producing one value, whatever it is asked. -/
def convC4 : String → oneflow_input → List (String × AttrValue) →
    Except String ConvOut :=
  fun _ _ _ => .ok (.single (.constI 7))

/-- A `relu` node declaring one input reference and two output
references. -/
def ucC4 : UserConf :=
  ⟨"relu", [("in_0", ["x/out"])], [("out_0", ["y1/out", "zz/out"])], []⟩

/-- The same node shape, but with both output references matched by
the consumer-side path table. -/
def ucC4b : UserConf :=
  ⟨"relu", [("in_0", ["x/out"])], [("out_0", ["y1/out", "y2/out"])], []⟩

/-- Consumer-side path table matching only the first output of
`ucC4`. -/
def inTabC4 : List (String × String) := [("d/y1/out", "n1-0-output_0")]

/-- Consumer-side path table matching both outputs of `ucC4b`. -/
def inTabC4b : List (String × String) :=
  [("d/y1/out", "a-0-output_0"), ("d/y2/out", "b-0-output_0")]

/-- Initial state holding the producer of path `x`. -/
def st0C4 : RunState :=
  ⟨[("x", .single (.var "x"))], [], [("x", [1])], [("x", "float32")], [], []⟩

/-- A graph: the `relu` node of `ucC4` followed by the graph-output
node consuming its (single matched) output. -/
def nodesC4 : List Node :=
  [⟨"n1", .user ucC4⟩, ⟨"n1-0-output_0", .outputConf "n1/out"⟩]

/-- Claim C2: For positive `input_extent`, `kernel_extent`, `stride`, the
pad pair returned by `get_pad_pair` sums to `expected_total_pad`
(`max(kernel - stride, 0)` when `input % stride == 0`, else
`max(kernel - input % stride, 0)`); the `SAME_UPPER` pair has
`before ≤ after`, and the `SAME_LOWER` pair is the `SAME_UPPER` pair
swapped, hence has `after ≤ before`. -/
theorem c2_pad_pair (i k s : Int) (hi : 0 < i) (hk : 0 < k) (hs : 0 < s) :
    ∃ b a, get_pad_pair i k s "SAME_UPPER" = [b, a] ∧
      b + a = expected_total_pad i k s ∧ b ≤ a ∧
      get_pad_pair i k s "SAME_LOWER" = [a, b] := by
  have hU : strContains "SAME_UPPER" "LOWER" = false := by decide
  have hL : strContains "SAME_LOWER" "LOWER" = true := by decide
  simp only [get_pad_pair, expected_total_pad, hU, hL, if_true, if_false,
    Bool.false_eq_true, Bool.true_eq_false]
  refine ⟨_, _, rfl, ?_, ?_, rfl⟩ <;> split <;> omega

theorem c2_pad_pair_witness :
    (0 : Int) < 5 ∧ (0 : Int) < 4 ∧ (0 : Int) < 2 ∧
      ∃ b a, get_pad_pair 5 4 2 "SAME_UPPER" = [b, a] ∧
        b + a = expected_total_pad 5 4 2 ∧ b ≤ a ∧
        get_pad_pair 5 4 2 "SAME_LOWER" = [a, b] :=
  ⟨by decide, by decide, by decide,
    c2_pad_pair 5 4 2 (by decide) (by decide) (by decide)⟩

/-- Claim C6 counterexample: An unknown padding-mode string does not fail:
`get_pad_pair` is total, and the unknown mode `"BOGUS"` is treated
exactly like `"SAME_UPPER"` (here with input 5, kernel 4, stride 2). -/
theorem c6_counterexample :
    get_pad_pair 5 4 2 "BOGUS" = [1, 2] ∧
      get_pad_pair 5 4 2 "SAME_UPPER" = [1, 2] := by
  constructor <;> decide

/-- Claim C6 amended: `get_pad_pair` never raises for an unknown mode
string: any mode not containing `"LOWER"` is treated as `same_upper`,
and any mode containing `"LOWER"` is treated as `same_lower`. -/
theorem c6_amended (i k s : Int) (mode : String) :
    (strContains mode "LOWER" = false →
      get_pad_pair i k s mode = get_pad_pair i k s "SAME_UPPER") ∧
    (strContains mode "LOWER" = true →
      get_pad_pair i k s mode = get_pad_pair i k s "SAME_LOWER") := by
  have hU : strContains "SAME_UPPER" "LOWER" = false := by decide
  have hL : strContains "SAME_LOWER" "LOWER" = true := by decide
  constructor <;> intro h <;> simp only [get_pad_pair, hU, hL, h]

theorem c6_amended_witness :
    strContains "BOGUS" "LOWER" = false ∧
      get_pad_pair 5 4 2 "BOGUS" = get_pad_pair 5 4 2 "SAME_UPPER" :=
  ⟨by decide, (c6_amended 5 4 2 "BOGUS").1 (by decide)⟩

/-! ## C3: binding a storage path twice -/

/-- Helper: a second dict assignment to the same key behaves exactly
like a single assignment of the second value (last write wins). -/
theorem ainsert_ainsert {κ β : Type} [DecidableEq κ] (k : κ) (v1 v2 : β) :
    ∀ tbl : List (κ × β), ainsert k v2 (ainsert k v1 tbl) = ainsert k v2 tbl := by
  intro tbl
  induction tbl with
  | nil => simp [ainsert]
  | cons hd tl ih =>
    obtain ⟨k', v'⟩ := hd
    by_cases h : k' = k <;> simp [ainsert, h, ih]

/-- Claim C3 counterexample: In `OneflowGraph.__init__`, binding the
storage path `"d/a/out"` first to the symbol `"m.a"` and then to the
different symbol `"a"` raises nothing: the construction is total and
the second binding silently replaces the first. -/
theorem c3_counterexample :
    buildInputPath2Name "d" [nodeC3] = [("d/a/out", "a")] ∧
      alookup "d/a/out" (buildInputPath2Name "d" [nodeC3]) = some "a" := by
  constructor <;> rfl

/-- Claim C3 amended: Path bindings use plain dict assignment: binding a
path already bound to a different symbol silently replaces the earlier
binding (last write wins) with no `DuplicateBinding` error, and
re-binding with the identical symbol is idempotent; concretely, a
single-node graph whose two input references join to the same path
ends with the later reference's symbol. -/
theorem c3_amended :
    (∀ (tbl : List (String × String)) (p s1 s2 : String),
      ainsert p s2 (ainsert p s1 tbl) = ainsert p s2 tbl) ∧
    (∀ (tbl : List (String × String)) (p s : String),
      ainsert p s (ainsert p s tbl) = ainsert p s tbl) ∧
    (∀ (dir op slotA slotB pA pB nm : String)
        (attrs : List (String × RawAttr)),
      pathJoin dir pA = pathJoin dir pB →
      buildInputPath2Name dir
          [⟨nm, .user ⟨op, [(slotA, [pA]), (slotB, [pB])], [], attrs⟩⟩] =
        [(pathJoin dir pA, firstSegment pB)]) := by
  refine ⟨fun tbl p s1 s2 => ainsert_ainsert p s1 s2 tbl,
    fun tbl p s => ainsert_ainsert p s s tbl, ?_⟩
  intro dir op slotA slotB pA pB nm attrs h
  simp [buildInputPath2Name, ainsert, h]

theorem c3_amended_witness :
    pathJoin "d" "m.a/out" = pathJoin "d" "a/out" ∧
      buildInputPath2Name "d" [⟨"n0", .user ⟨"relu",
          [("in0", ["m.a/out"]), ("in1", ["a/out"])], [], []⟩⟩] =
        [(pathJoin "d" "m.a/out", firstSegment "a/out")] :=
  ⟨rfl, c3_amended.2.2 "d" "relu" "in0" "in1" "m.a/out" "a/out" "n0" [] rfl⟩

/-! ## C5: unknown attribute tags are silently dropped -/

theorem parse_attr_aux_skip (k t : String) (post : List (String × RawAttr)) :
    ∀ (pre : List (String × RawAttr)) (acc : List (String × AttrValue)),
      parse_attr_aux acc (pre ++ (k, .unknownTag t) :: post) =
        parse_attr_aux acc (pre ++ post) := by
  intro pre
  induction pre with
  | nil => intro acc; simp [parse_attr_aux, parseOneAttr]
  | cons hd tl ih =>
    intro acc
    obtain ⟨k', v'⟩ := hd
    cases hv : parseOneAttr v' <;> simp [parse_attr_aux, hv, ih]

/-- Claim C5, code behavior at the failing input: `parse_attr` silently
drops any entry whose tag is outside the known set: parsing a map with
an unknown-tagged entry for key `k` gives exactly the parse of the map
without that entry — no error is raised and no
`UnrecognizedAttributeKind` naming `k` exists; in particular a
one-entry map with an unknown tag parses to the empty map. -/
theorem c5_unknown_tag_dropped (pre post : List (String × RawAttr))
    (k t : String) :
    parse_attr (pre ++ (k, .unknownTag t) :: post) = parse_attr (pre ++ post) ∧
      parse_attr [(k, RawAttr.unknownTag t)] = [] := by
  exact ⟨parse_attr_aux_skip k t post pre [], rfl⟩

/-! ## C9: `oneflow_input.__getitem__` -/

/-- Claim C9: Reading with an integer index beyond the last valid index,
or with a string key never set, returns `None` rather than raising;
and the access raises `ValueError` exactly when the key is neither an
integer, a string, nor a slice. -/
theorem c9_getitem (st : oneflow_input) :
    (∀ n : Int, (st.input_keys.length : Int) - 1 < n →
      st.getitem (.ival n) = .noneR) ∧
    (∀ s : String, st.input_keys.contains s = false →
      st.getitem (.sval s) = .noneR) ∧
    (∀ k : PyKey, st.getitem k = .valueErr ↔ k = .other) := by
  refine ⟨?_, ?_, ?_⟩
  · intro n h
    simp only [oneflow_input.getitem]
    rw [if_pos h]
  · intro s h
    simp only [oneflow_input.getitem]
    rw [if_neg (by simpa using h)]
  · intro k
    cases k with
    | ival n =>
      simp only [oneflow_input.getitem]
      constructor
      · intro h
        split at h
        · simp at h
        · split at h
          · simp at h
          · split at h <;> simp at h
      · intro h; simp at h
    | sval s =>
      simp only [oneflow_input.getitem]
      constructor
      · intro h
        split at h
        · split at h <;> simp at h
        · simp at h
      · intro h; simp at h
    | sliceK a b =>
      simp only [oneflow_input.getitem]
      constructor
      · intro h
        split at h <;> simp at h
      · intro h; simp at h
    | other => simp [oneflow_input.getitem]

theorem c9_getitem_witness :
    (oneflow_input.getitem ⟨["a"], [("a", .single (.var "a"))]⟩ (.ival 5) =
      .noneR) ∧
    (oneflow_input.getitem ⟨["a"], [("a", .single (.var "a"))]⟩ (.sval "zz") =
      .noneR) ∧
    (oneflow_input.getitem ⟨["a"], [("a", .single (.var "a"))]⟩ .other =
      .valueErr) :=
  ⟨(c9_getitem ⟨["a"], [("a", .single (.var "a"))]⟩).1 5 (by decide),
   (c9_getitem ⟨["a"], [("a", .single (.var "a"))]⟩).2.1 "zz" (by decide),
   ((c9_getitem ⟨["a"], [("a", .single (.var "a"))]⟩).2.2 .other).2 rfl⟩

/-! ## C10: scalar add / scalar mul converters -/

/-- Claim C10: With one input: if neither `has_int_operand` nor
`has_float_operand` is truthy, both scalar converters raise the
`AttributeError`; if `has_int_operand` holds, they add/multiply by the
`int_operand` constant; otherwise, if `has_float_operand` holds, by
the `float_operand` constant. -/
theorem c10_scalar_ops (x : RelayExpr) (attrs : List (String × AttrValue)) :
    (attrTruthy attrs "has_int_operand" = false →
     attrTruthy attrs "has_float_operand" = false →
      scalarAddImpl [x] attrs =
        .error "AttributeError: please check if has_int_operand or has_float_operand in your attrs" ∧
      scalarMulImpl [x] attrs =
        .error "AttributeError: please check if has_int_operand or has_float_operand in your attrs") ∧
    (∀ n : Int, attrTruthy attrs "has_int_operand" = true →
      alookup "int_operand" attrs = some (.aInt n) →
      scalarAddImpl [x] attrs = .ok (.add x (.constI n)) ∧
      scalarMulImpl [x] attrs = .ok (.mul x (.constI n))) ∧
    (∀ f : FloatVal, attrTruthy attrs "has_int_operand" = false →
      attrTruthy attrs "has_float_operand" = true →
      alookup "float_operand" attrs = some (.aFloat f) →
      scalarAddImpl [x] attrs = .ok (.add x (.constF f)) ∧
      scalarMulImpl [x] attrs = .ok (.mul x (.constF f))) := by
  refine ⟨?_, ?_, ?_⟩
  · intro h1 h2
    constructor <;> simp [scalarAddImpl, scalarMulImpl, h1, h2]
  · intro n h1 h2
    constructor <;> simp [scalarAddImpl, scalarMulImpl, h1, h2, mkConst]
  · intro f h1 h2 h3
    constructor <;> simp [scalarAddImpl, scalarMulImpl, h1, h2, h3, mkConst]

theorem c10_scalar_ops_witness :
    (scalarAddImpl [.var "x"] [] =
      .error "AttributeError: please check if has_int_operand or has_float_operand in your attrs") ∧
    (scalarAddImpl [.var "x"]
        [("has_int_operand", .aBool true), ("int_operand", .aInt 3)] =
      .ok (.add (.var "x") (.constI 3))) ∧
    (scalarMulImpl [.var "x"]
        [("has_float_operand", .aBool true), ("float_operand", .aFloat ⟨7⟩)] =
      .ok (.mul (.var "x") (.constF ⟨7⟩))) :=
  ⟨((c10_scalar_ops (.var "x") []).1 (by decide) (by decide)).1,
   ((c10_scalar_ops (.var "x")
      [("has_int_operand", .aBool true), ("int_operand", .aInt 3)]).2.1 3
      (by decide) (by decide)).1,
   ((c10_scalar_ops (.var "x")
      [("has_float_operand", .aBool true), ("float_operand", .aFloat ⟨7⟩)]).2.2
      ⟨7⟩ (by decide) (by decide) (by decide)).2⟩

/-! ## C8: unmatched output paths warn, unresolvable inputs raise -/

/-- Helper: `collectPaths` distributes over list concatenation. -/
theorem collectPaths_append (inputTab outputTab : List (String × String))
    (dir : String) (l2 : List String) :
    ∀ l1 : List String,
      collectPaths inputTab outputTab dir (l1 ++ l2) =
        ((collectPaths inputTab outputTab dir l1).1 ++
            (collectPaths inputTab outputTab dir l2).1,
          (collectPaths inputTab outputTab dir l1).2 ++
            (collectPaths inputTab outputTab dir l2).2) := by
  intro l1
  induction l1 with
  | nil => simp [collectPaths]
  | cons p ps ih =>
    simp only [List.cons_append, collectPaths]
    cases alookup (pathJoin dir p) inputTab with
    | some n => simp [ih]
    | none =>
      cases alookup (pathJoin dir p) outputTab with
      | some n => simp [ih]
      | none => simp [ih]

/-- Claim C8: Output/input asymmetry.  A declared output reference whose
joined path matches neither `self._input_path_2_name` nor
`self._output_path_2_name` contributes nothing to `node_outputs` and
only records the warning — `collectPaths` is total, so the run
continues.  An input reference whose name has no shape entry, by
contrast, raises a fatal `KeyError` in `_parse_input`. -/
theorem c8_io_asymmetry (inputTab outputTab : List (String × String))
    (dir p : String) (ps1 ps2 : List String)
    (h1 : alookup (pathJoin dir p) inputTab = none)
    (h2 : alookup (pathJoin dir p) outputTab = none)
    (shapeTab : List (String × List Int)) (dtypeTab : List (String × String))
    (inputTab2 : List (String × String)) (nodes : List (String × ConvOut))
    (q : String) (hq : alookup (firstSegment q) shapeTab = none) :
    collectPaths inputTab outputTab dir (ps1 ++ p :: ps2) =
      ((collectPaths inputTab outputTab dir ps1).1 ++
          (collectPaths inputTab outputTab dir ps2).1,
        (collectPaths inputTab outputTab dir ps1).2 ++
          outputWarn (pathJoin dir p) ::
            (collectPaths inputTab outputTab dir ps2).2) ∧
    parseInputPath shapeTab dtypeTab inputTab2 dir nodes q =
      .error ("KeyError: " ++ firstSegment q) := by
  constructor
  · rw [collectPaths_append]
    simp [collectPaths, h1, h2]
  · simp [parseInputPath, hq]

theorem c8_io_asymmetry_witness :
    collectPaths [("d/y/out", "y-0-output_0")] [] "d" ["y/out", "zz/out"] =
      (["y-0-output_0"], ["d/zz/out is not in known path"]) ∧
    parseInputPath [] [] [] "d" [] "w/out" = .error "KeyError: w" := by
  have h := c8_io_asymmetry [("d/y/out", "y-0-output_0")] [] "d" "zz/out"
    ["y/out"] [] (by decide) (by decide) [] [] [] [] "w/out" (by decide)
  have h1 := h.1
  simp only [List.singleton_append] at h1
  exact ⟨by rw [h1]; rfl, h.2⟩

/-! ## C7: deterministic input ordering -/

theorem pullFirst_none (p : String → Bool) :
    ∀ l : List String, (∀ y ∈ l, p y = false) → pullFirst p l = none := by
  intro l
  induction l with
  | nil => intro _; rfl
  | cons y ys ih =>
    intro h
    have hy : p y = false := h y (by simp)
    simp [pullFirst, hy, ih fun z hz => h z (by simp [hz])]

theorem pullFirst_found (p : String → Bool) (x : String) (hx : p x = true)
    (l2 : List String) :
    ∀ l1 : List String, (∀ y ∈ l1, p y = false) →
      pullFirst p (l1 ++ x :: l2) = some (x, l1 ++ l2) := by
  intro l1
  induction l1 with
  | nil => intro _; simp [pullFirst, hx]
  | cons y ys ih =>
    intro h
    have hy : p y = false := h y (by simp)
    simp [pullFirst, hy, ih fun z hz => h z (by simp [hz])]

/-- Helper: the input-ordering loop moves the unique `Input_0`-tagged
name to the front and keeps every other name in first-seen order. -/
theorem sortInputNames_spec (x : String)
    (hx : strContains x "Input_0" = true) (l2 : List String)
    (h2 : ∀ y ∈ l2, strContains y "Input_0" = false) :
    ∀ l1 : List String, (∀ y ∈ l1, strContains y "Input_0" = false) →
      sortInputNames (l1 ++ x :: l2) = x :: (l1 ++ l2) := by
  intro l1 h1
  cases l1 with
  | nil =>
    simp only [List.nil_append, sortInputNames]
    rw [pullFirst_none _ l2 h2]
  | cons a l1' =>
    simp only [List.cons_append, sortInputNames]
    rw [pullFirst_found _ x hx l2 l1' fun z hz => h1 z (by simp [hz])]

theorem alookup_of_nodup {β : Type} (k : String) (v : β) :
    ∀ l : List (String × β), (l.map Prod.fst).Nodup → (k, v) ∈ l →
      alookup k l = some v := by
  intro l
  induction l with
  | nil => intro _ hm; simp at hm
  | cons hd tl ih =>
    intro hnd hm
    obtain ⟨k', v'⟩ := hd
    simp only [List.map_cons, List.nodup_cons] at hnd
    rcases List.mem_cons.mp hm with heq | htl
    · injection heq with hk hv
      subst hk; subst hv
      simp [alookup]
    · have hk : k' ≠ k := by
        intro hkk
        exact hnd.1 (hkk ▸ (List.mem_map.mpr ⟨(k, v), htl, rfl⟩))
      simp [alookup, hk, ih hnd.2 htl]

theorem lookupAllInputs_of_pairs (inputs : List (String × ConvOut)) :
    ∀ ents : List (String × ConvOut),
      (∀ kv ∈ ents, alookup kv.1 inputs = some kv.2) →
      lookupAllInputs inputs (ents.map Prod.fst) = .ok ents := by
  intro ents
  induction ents with
  | nil => intro _; rfl
  | cons kv rest ih =>
    intro h
    obtain ⟨k, v⟩ := kv
    have hk : alookup k inputs = some v := h (k, v) (by simp)
    simp [lookupAllInputs, hk, ih fun z hz => h z (by simp [hz]), Except.map]

/-- Claim C7: When `self._inputs` holds exactly one name containing
`"Input_0"` (the primary network input), the assembled parameter list
starts with that input, and all other inputs keep their first-seen
order. -/
theorem c7_input_ordering (l1 l2 : List (String × ConvOut)) (x : String)
    (vx : ConvOut) (hx : strContains x "Input_0" = true)
    (h1 : ∀ kv ∈ l1, strContains kv.1 "Input_0" = false)
    (h2 : ∀ kv ∈ l2, strContains kv.1 "Input_0" = false)
    (hnd : ((l1 ++ (x, vx) :: l2).map Prod.fst).Nodup) :
    buildSortedInputs (l1 ++ (x, vx) :: l2) = .ok ((x, vx) :: (l1 ++ l2)) := by
  have hmap : (l1 ++ (x, vx) :: l2).map Prod.fst =
      l1.map Prod.fst ++ x :: l2.map Prod.fst := by simp
  have hsort : sortInputNames ((l1 ++ (x, vx) :: l2).map Prod.fst) =
      x :: (l1.map Prod.fst ++ l2.map Prod.fst) := by
    rw [hmap]
    exact sortInputNames_spec x hx (l2.map Prod.fst)
      (fun y hy => by
        obtain ⟨kv, hkv, rfl⟩ := List.mem_map.mp hy
        exact h2 kv hkv)
      (l1.map Prod.fst)
      (fun y hy => by
        obtain ⟨kv, hkv, rfl⟩ := List.mem_map.mp hy
        exact h1 kv hkv)
  have hsort2 : sortInputNames ((l1 ++ (x, vx) :: l2).map Prod.fst) =
      ((x, vx) :: (l1 ++ l2)).map Prod.fst := by
    rw [hsort]; simp
  rw [buildSortedInputs, hsort2]
  refine lookupAllInputs_of_pairs _ _ ?_
  intro kv hkv
  refine alookup_of_nodup kv.1 kv.2 _ hnd ?_
  rcases List.mem_cons.mp hkv with heq | htl
  · rw [heq]; simp
  · rcases List.mem_append.mp htl with hl | hr
    · exact List.mem_append.mpr (Or.inl hl)
    · exact List.mem_append.mpr (Or.inr (List.mem_cons.mpr (Or.inr hr)))

theorem c7_input_ordering_witness :
    buildSortedInputs
        [("w1-param", .single (.var "w1-param")),
         ("Input_0", .single (.var "Input_0")),
         ("w2-param", .single (.var "w2-param"))] =
      .ok [("Input_0", .single (.var "Input_0")),
           ("w1-param", .single (.var "w1-param")),
           ("w2-param", .single (.var "w2-param"))] :=
  c7_input_ordering [("w1-param", .single (.var "w1-param"))]
    [("w2-param", .single (.var "w2-param"))] "Input_0"
    (.single (.var "Input_0")) (by decide)
    (by intro kv hkv; simp at hkv; subst hkv; decide)
    (by intro kv hkv; simp at hkv; subst hkv; decide)
    (by decide)

/-! ## C1: aggregate fail-fast operator-coverage check -/

theorem mem_collectUnsupportedAux (s : String) :
    ∀ (nodes : List Node) (acc : List String),
      s ∈ collectUnsupportedAux acc nodes ↔
        s ∈ acc ∨ ∃ nd ∈ nodes, ∃ uc : UserConf,
          nd.conf = .user uc ∧ uc.opTypeName = s ∧ supportedOp s = false := by
  intro nodes
  induction nodes with
  | nil => intro acc; simp [collectUnsupportedAux]
  | cons nd rest ih =>
    intro acc
    obtain ⟨nm, conf⟩ := nd
    cases conf with
    | user uc =>
      by_cases hb : supportedOp uc.opTypeName || acc.contains uc.opTypeName
      · rw [collectUnsupportedAux]
        simp only [if_pos hb]
        rw [ih]
        constructor
        · rintro (ha | hrest)
          · exact Or.inl ha
          · obtain ⟨nd', hnd', huc⟩ := hrest
            exact Or.inr ⟨nd', by simp [hnd'], huc⟩
        · rintro (ha | ⟨nd', hnd', uc', huc', hop, hsup⟩)
          · exact Or.inl ha
          · rcases List.mem_cons.mp hnd' with hh | ht
            · subst hh
              injection huc' with he
              subst he
              rw [hop] at hb
              rcases Bool.or_eq_true_iff.mp hb with h1 | h2
              · rw [hsup] at h1; exact absurd h1 (by simp)
              · exact Or.inl (by simpa using h2)
            · exact Or.inr ⟨nd', ht, uc', huc', hop, hsup⟩
      · rw [collectUnsupportedAux]
        simp only [if_neg hb]
        rw [ih]
        simp only [Bool.or_eq_true, not_or, Bool.not_eq_true] at hb
        obtain ⟨hsup, hacc⟩ := hb
        constructor
        · rintro (ha | hrest)
          · rcases List.mem_append.mp ha with h1 | h2
            · exact Or.inl h1
            · have hs : s = uc.opTypeName := by simpa using h2
              subst hs
              exact Or.inr ⟨⟨nm, .user uc⟩, by simp, uc, rfl, rfl, hsup⟩
          · obtain ⟨nd', hnd', huc⟩ := hrest
            exact Or.inr ⟨nd', by simp [hnd'], huc⟩
        · rintro (ha | ⟨nd', hnd', uc', huc', hop, hsup'⟩)
          · exact Or.inl (List.mem_append.mpr (Or.inl ha))
          · rcases List.mem_cons.mp hnd' with hh | ht
            · subst hh
              injection huc' with he
              subst he
              exact Or.inl (List.mem_append.mpr (Or.inr (by simp [hop])))
            · exact Or.inr ⟨nd', ht, uc', huc', hop, hsup'⟩
    | inputConf =>
      rw [collectUnsupportedAux]
      rw [ih]
      constructor
      · rintro (ha | ⟨nd', hnd', huc⟩)
        · exact Or.inl ha
        · exact Or.inr ⟨nd', by simp [hnd'], huc⟩
      · rintro (ha | ⟨nd', hnd', uc', huc', hop, hsup⟩)
        · exact Or.inl ha
        · rcases List.mem_cons.mp hnd' with hh | ht
          · subst hh; exact absurd huc' (by simp)
          · exact Or.inr ⟨nd', ht, uc', huc', hop, hsup⟩
    | outputConf p =>
      rw [collectUnsupportedAux]
      rw [ih]
      constructor
      · rintro (ha | ⟨nd', hnd', huc⟩)
        · exact Or.inl ha
        · exact Or.inr ⟨nd', by simp [hnd'], huc⟩
      · rintro (ha | ⟨nd', hnd', uc', huc', hop, hsup⟩)
        · exact Or.inl ha
        · rcases List.mem_cons.mp hnd' with hh | ht
          · subst hh; exact absurd huc' (by simp)
          · exact Or.inr ⟨nd', ht, uc', huc', hop, hsup⟩
    | variableConf =>
      rw [collectUnsupportedAux]
      rw [ih]
      constructor
      · rintro (ha | ⟨nd', hnd', huc⟩)
        · exact Or.inl ha
        · exact Or.inr ⟨nd', by simp [hnd'], huc⟩
      · rintro (ha | ⟨nd', hnd', uc', huc', hop, hsup⟩)
        · exact Or.inl ha
        · rcases List.mem_cons.mp hnd' with hh | ht
          · subst hh; exact absurd huc' (by simp)
          · exact Or.inr ⟨nd', ht, uc', huc', hop, hsup⟩

theorem nodup_collectUnsupportedAux :
    ∀ (nodes : List Node) (acc : List String), acc.Nodup →
      (collectUnsupportedAux acc nodes).Nodup := by
  intro nodes
  induction nodes with
  | nil => intro acc h; exact h
  | cons nd rest ih =>
    intro acc h
    obtain ⟨nm, conf⟩ := nd
    cases conf with
    | user uc =>
      by_cases hb : supportedOp uc.opTypeName || acc.contains uc.opTypeName
      · rw [collectUnsupportedAux]
        simp only [if_pos hb]
        exact ih acc h
      · rw [collectUnsupportedAux]
        simp only [if_neg hb]
        refine ih _ ?_
        simp only [Bool.or_eq_true, not_or, Bool.not_eq_true] at hb
        have : uc.opTypeName ∉ acc := by simpa using hb.2
        simp [List.nodup_append, h, this]
    | inputConf => rw [collectUnsupportedAux]; exact ih acc h
    | outputConf p => rw [collectUnsupportedAux]; exact ih acc h
    | variableConf => rw [collectUnsupportedAux]; exact ih acc h

/-- Claim C1: If the node list mentions at least one unsupported
op-type, the run fails immediately with the single aggregated
`OpNotImplemented` error whose message joins the collected names; the
error state is the *initial* state (no node was converted, its trace
is untouched); the collected list holds exactly the op-type names of
user nodes outside the registry and identity list, each once. -/
theorem c1_unsupported_ops
    (conv : String → oneflow_input → List (String × AttrValue) → Except String ConvOut)
    (dir : String) (inputTab outputTab : List (String × String))
    (st0 : RunState) (nodeList : List Node)
    (hne : collectUnsupported nodeList ≠ []) :
    fromOneflowModel conv dir inputTab outputTab st0 nodeList =
      .error (st0, unsupportedMsg (collectUnsupported nodeList)) ∧
    (∀ s : String, s ∈ collectUnsupported nodeList ↔
      ∃ nd ∈ nodeList, ∃ uc : UserConf,
        nd.conf = .user uc ∧ uc.opTypeName = s ∧ supportedOp s = false) ∧
    (collectUnsupported nodeList).Nodup := by
  refine ⟨?_, ?_, ?_⟩
  · rw [fromOneflowModel, if_neg hne]
  · intro s
    rw [collectUnsupported, mem_collectUnsupportedAux]
    simp
  · exact nodup_collectUnsupportedAux nodeList [] List.nodup_nil

theorem c1_unsupported_ops_witness :
    fromOneflowModel convNone "d" [] [] stEmpty nodesC1 =
      .error (stEmpty, unsupportedMsg (collectUnsupported nodesC1)) ∧
    unsupportedMsg (collectUnsupported nodesC1) =
      "The following operators are not supported for frontend OneFlow: fancy_op, other_op" ∧
    stEmpty.trace = [] :=
  ⟨(c1_unsupported_ops convNone "d" [] [] stEmpty nodesC1 (by decide)).1,
   by decide, rfl⟩

/-! ## C4: output-count check -/

/-- Claim C4 counterexample: A node declaring two output references,
one of which matches no known path, is converted by a converter
producing one value and the run succeeds: the count assert
compares against the matched (surviving) output names, not against
the declared output slots, so no `OutputCountMismatch` is raised.
The unmatched output merely leaves a warning in the final state. -/
theorem c4_counterexample :
    ucC4.outputSlots.foldl (fun n s => n + s.2.length) 0 = 2 ∧
    outputsNumOf (ConvOut.single (.constI 7)) = 1 ∧
    fromOneflowModel convC4 "d" inTabC4 [] st0C4 nodesC4 =
      .ok (⟨[("x", .single (.var "x")), ("n1-0-output_0", .single (.constI 7))],
            [], [("x", [1])], [("x", "float32")],
            ["d/zz/out is not in known path"], ["n1"]⟩,
           ⟨[], .one (.single (.constI 7))⟩) :=
  ⟨rfl, rfl, rfl⟩

/-- Claim C4 amended: When an operator's converter produces a number of
values different from the number of its declared output references
that *matched a known path* (and survived `_parse_output`), the run
fails with the assertion error whose message carries both counts and
the op-type name (the node name is not part of the message). -/
theorem c4_output_count_amended
    (conv : String → oneflow_input → List (String × AttrValue) → Except String ConvOut)
    (dir : String) (inputTab outputTab : List (String × String))
    (st : RunState) (nodeName : String) (uc : UserConf)
    (hskip : alookup nodeName st.inputs = none)
    (nodes1 : List (String × ConvOut))
    (hpi : parseInputs st.shape st.dtype inputTab dir st.nodes uc.inputSlots =
      .ok nodes1)
    (ni : oneflow_input)
    (hgi : gatherInputs nodes1 uc.inputSlots = .ok ni)
    (shape2 : List (String × List Int)) (dtype2 : List (String × String))
    (outs1 : List String)
    (hpo : parse_output uc.opTypeName st.shape st.dtype
        (collectNodeOutputs inputTab outputTab dir uc.outputSlots).1 =
      .ok (shape2, dtype2, outs1))
    (cv : ConvOut)
    (hcv : convert_operator conv uc.opTypeName ni (parse_attr uc.rawAttrs) =
      .ok cv)
    (hcnt : outs1.length ≠ outputsNumOf cv) :
    convertUserNodeStep conv dir inputTab outputTab st nodeName uc =
      .error ({ st with
                  nodes := nodes1,
                  warnings := st.warnings ++
                    (collectNodeOutputs inputTab outputTab dir uc.outputSlots).2,
                  shape := shape2,
                  dtype := dtype2 },
        mismatchMsg outs1.length (outputsNumOf cv) uc.opTypeName) := by
  rw [convertUserNodeStep]
  simp only [hskip, Option.isSome_none, Bool.false_eq_true, if_false, hpi,
    hgi, hpo, hcv, assertOutputCount, if_neg hcnt]

theorem c4_output_count_amended_witness :
    convertUserNodeStep convC4 "d" inTabC4b [] st0C4 "n1" ucC4b =
      .error (⟨[("x", .single (.var "x"))], [], [("x", [1])],
          [("x", "float32")], [], []⟩,
        mismatchMsg 2 1 "relu") :=
  c4_output_count_amended convC4 "d" inTabC4b [] st0C4 "n1" ucC4b rfl
    [("x", .single (.var "x"))] rfl
    ⟨["x"], [("x", .single (.var "x"))]⟩ rfl
    [("x", [1])] [("x", "float32")] ["a-0-output_0", "b-0-output_0"] rfl
    (.single (.constI 7)) rfl (by decide)
